import Mathlib

/-!
# Verification of the metaG/metaT comparison pipeline (`src/metaG_metaT/similar.py`)

A shallow embedding of the pipeline core of `similar.py`:

* `parse_classification_percents` — scanning a Kraken2 report for the
  classified / unclassified percentages;
* `run_command` — the external-tool wrapper and its exit behaviour;
* `prepare_input` — resolution of a sample specifier into files + canonical id;
* `merge_metag_metat` — pandas outer/inner join of two Bracken tables with the
  fill defaults and the prepended `CLASSIFICATION_STATS` row;
* `compute_similarity` — alignment of the two fraction vectors and the
  scipy cosine call;
* the read-length validation at the top of `execute_pipeline_logic`.

Numeric cell values are modelled exactly as rationals (`Rat`); a Python float
literal such as `12.34` is represented by the rational `1234/100`.  Pandas
tables are lists of records; an outer merge on a unique key is modelled as the
left rows in order followed by the unmatched right rows in order (the claims
proved below do not depend on the ordering of the join, only on membership and
cardinality, and refinement compares two instances of the same join).
-/

namespace Similar

/-! ## Python string primitives

`str.strip`, `str.split("\t")` and `float(...)` restricted to the decimal
literals that occur in Kraken2 reports.  All functions are structural
recursions over `List Char` so that concrete instances evaluate by `decide`.
-/

/-- Python `str.strip()`: drop leading and trailing whitespace. -/
def pyStrip (cs : List Char) : List Char :=
  ((cs.dropWhile Char.isWhitespace).reverse.dropWhile Char.isWhitespace).reverse

/-- Python `s.split(sep)` for a one-character separator, keeping empty pieces
(`"".split(sep) = [""]`). -/
def splitOnSep (sep : Char) : List Char → List (List Char)
  | [] => [[]]
  | c :: rest =>
    match splitOnSep sep rest with
    | [] => [[c]]
    | h :: t => if c = sep then [] :: h :: t else (c :: h) :: t

/-- Python `s.split("\t")`. -/
def splitTab (cs : List Char) : List (List Char) :=
  splitOnSep '\t' cs

/-- Value of a list of decimal digit characters. -/
def digitsVal (cs : List Char) : Nat :=
  cs.foldl (fun n c => n * 10 + (c.toNat - 48)) 0

/-- Python `float(s)` on the decimal literals produced by Kraken2 reports:
optional sign, then digits with an optional fractional part (at least one
digit overall).  Returns `none` exactly when Python `float` raises
`ValueError` on such strings (exponents / `inf` / `nan` spellings do not occur
in the reports and are likewise rejected). -/
def pyFloat? (s : List Char) : Option Rat :=
  let (sgn, body) : Int × List Char :=
    match s with
    | '-' :: r => (-1, r)
    | '+' :: r => (1, r)
    | _ => (1, s)
  let intPart := body.takeWhile Char.isDigit
  let rest := body.dropWhile Char.isDigit
  match rest with
  | [] =>
    if intPart.isEmpty then none
    else some (mkRat (sgn * (digitsVal intPart : Int)) 1)
  | '.' :: r2 =>
    let fracPart := r2.takeWhile Char.isDigit
    let rest2 := r2.dropWhile Char.isDigit
    if rest2.isEmpty && !(intPart.isEmpty && fracPart.isEmpty) then
      some (mkRat
        (sgn * ((digitsVal intPart : Int) * 10 ^ fracPart.length + digitsVal fracPart))
        (10 ^ fracPart.length))
    else none
  | _ => none

/-! ## `parse_classification_percents`

The report file is modelled as its list of lines.  The Python loop carries the
pair `(percent_classified, percent_unclassified)`; a `ValueError` from
`float(parts[0].strip())` propagates out of the function, which we model with
`Except String`.  The returned `Bool` records whether the
`[WARNING] Could not parse classification percentages cleanly` message is
printed (both values still `0.0` at the end).
-/

/-- The tab-separated fields of one (stripped) report line. -/
def lineParts (line : String) : List (List Char) :=
  splitTab (pyStrip line.data)

/-- One iteration of the report-scanning loop: `acc = (percent_classified,
percent_unclassified)`. -/
def parseLine (acc : Rat × Rat) (line : String) : Except String (Rat × Rat) :=
  let parts := lineParts line
  if parts.length < 2 then Except.ok acc
  else
    match pyFloat? (pyStrip (parts.headD [])) with
    | none => Except.error "ValueError: could not convert string to float"
    | some pct =>
      let name := pyStrip (parts.getLastD [])
      if name = "unclassified".data then Except.ok (acc.1, pct)
      else if name = "root".data then Except.ok (pct, acc.2)
      else Except.ok acc

/-- `parse_classification_percents` over the report's lines: the final
`(percent_classified, percent_unclassified)` pair together with whether the
non-fatal warning is printed; `Except.error` when `float` raises. -/
def parse_classification_percents (lines : List String) :
    Except String ((Rat × Rat) × Bool) :=
  (lines.foldlM parseLine (0, 0)).map
    (fun p => (p, decide (p.1 = 0 ∧ p.2 = 0)))

/-- The fate of the classification stage of `execute_pipeline_logic` as far
as report scanning is concerned: `parse_classification_percents` runs inside
`run_kraken_bracken` with no local handler, and the surrounding `try` in
`execute_pipeline_logic` answers any escaping exception (such as the
`ValueError` from `float`) with `sys.exit(1)`. -/
def classification_stage_outcome (lines : List String) :
    Except Nat ((Rat × Rat) × Bool) :=
  match parse_classification_percents lines with
  | .ok r => .ok r
  | .error _ => .error 1

/-! ## `run_command`

`subprocess.run(cmd, shell=True, check=True)` raises `CalledProcessError`
exactly when the invoked tool exits non-zero; the handler prints the failure
and calls `sys.exit(1)`.  The command is issued once — there is no retry
path.  We model the wrapper by the exit code of the external tool. -/

/-- Observable outcome of `run_command`: either the wrapper returns normally,
or the whole process terminates with the given exit code. -/
inductive RunOutcome where
  | ok : RunOutcome
  | exited (code : Nat) : RunOutcome
deriving DecidableEq, Repr

/-- `run_command`, as a function of the external tool's exit code. -/
def run_command (toolExitCode : Nat) : RunOutcome :=
  if toolExitCode = 0 then .ok else .exited 1

/-! ## Read-length validation (`execute_pipeline_logic`, first statement)

`if not read_len.isdigit(): sys.exit(1)` runs before any directory is created
and before any external command is issued. -/

/-- Python `str.isdigit()` (ASCII digits; report inputs are ASCII): true iff
the string is nonempty and every character is a digit. -/
def py_isdigit (s : String) : Bool :=
  !s.data.isEmpty && s.data.all Char.isDigit

/-- Outcome of the validation prefix of `execute_pipeline_logic`. -/
inductive ValidationOutcome where
  | exitedBeforeExternalCall (code : Nat) : ValidationOutcome
  | proceeded : ValidationOutcome
deriving DecidableEq, Repr

/-- The read-length check at the top of `execute_pipeline_logic`: exit code 1
before any external tool is invoked unless `read_len.isdigit()`. -/
def read_len_validation (read_len : String) : ValidationOutcome :=
  if !(py_isdigit read_len) then .exitedBeforeExternalCall 1 else .proceeded

/-! ## `prepare_input`

The filesystem is abstracted by the predicate `isFile` (`os.path.isfile`).
The three observable behaviours of the function are: return a single local
FASTQ with its canonical id; raise `FileNotFoundError`; or take the
SRA-accession branch (prefetch + fasterq-dump into the per-accession
subdirectory `output_folder/acc`, canonical id `acc`). -/

/-- Observable result of `prepare_input`. -/
inductive ResolveOutcome where
  | localFastq (files : List String) (canonicalId : String) : ResolveOutcome
  | fileNotFoundError (msg : String) : ResolveOutcome
  | sraFetch (subdir : String) (canonicalId : String) : ResolveOutcome
deriving DecidableEq, Repr

/-- Python `s.endswith(suffix)`. -/
def strEndsWith (s suffix : String) : Bool :=
  suffix.data.isSuffixOf s.data

/-- `os.path.basename`: the part after the last `/`. -/
def basename (p : String) : String :=
  ⟨(splitOnSep '/' p.data).getLastD []⟩

/-- `s.split('.')[0]`: the part of `s` before the first dot. -/
def stemBeforeDot (s : String) : String :=
  ⟨(splitOnSep '.' s.data).headD []⟩

/-- `prepare_input(input_source, output_folder)` under filesystem `isFile`. -/
def prepare_input (isFile : String → Bool) (input_source output_folder : String) :
    ResolveOutcome :=
  if isFile input_source then
    if strEndsWith input_source ".fastq" || strEndsWith input_source ".fastq.gz" then
      .localFastq [input_source] (stemBeforeDot (basename input_source))
    else
      .fileNotFoundError ("Input file " ++ input_source ++
        " does not look like a FASTQ. Please use .fastq or .fastq.gz.")
  else
    .sraFetch (output_folder ++ "/" ++ input_source) input_source

/-! ## Bracken tables and `merge_metag_metat`

A Bracken CSV row (after `pd.read_csv`) has the seven columns
`name, taxonomy_id, taxonomy_lvl, kraken_assigned_reads, added_reads,
new_est_reads, fraction_total_reads`.  All numeric cells are modelled as
exact rationals (pandas holds them as 64-bit numbers; none of the verified
properties depend on rounding).  A pandas outer merge on the unique key
`name` is modelled as the left rows in order followed by the unmatched right
rows in order; the properties proved below depend only on membership,
cardinality and on both merges in the program using the same model. -/

/-- One row of a Bracken abundance CSV. -/
structure BrackenRow where
  name : String
  taxonomy_id : Rat
  taxonomy_lvl : String
  kraken_assigned_reads : Rat
  added_reads : Rat
  new_est_reads : Rat
  fraction_total_reads : Rat
deriving DecidableEq, Repr

/-- One row of the 14-column merged/overlap output of `merge_metag_metat`
(after the `fillna` steps every cell is concrete). -/
structure MergedRow where
  name : String
  taxonomy_id_metaG : Rat
  taxonomy_lvl_metaG : String
  kraken_assigned_reads_metaG : Rat
  added_reads_metaG : Rat
  new_est_reads_metaG : Rat
  fraction_total_reads_metaG : Rat
  taxonomy_id_metaT : Rat
  taxonomy_lvl_metaT : String
  kraken_assigned_reads_metaT : Rat
  added_reads_metaT : Rat
  new_est_reads_metaT : Rat
  fraction_total_reads_metaT : Rat
  difference : Rat
deriving DecidableEq, Repr

/-- First row of a table whose `name` equals `n` (`pd.merge` key lookup for
unique keys). -/
def findRow (t : List BrackenRow) (n : String) : Option BrackenRow :=
  t.find? (fun r => r.name == n)

/-- `pd.merge(df_g, df_t, on="name", how="outer")` on unique keys: every left
row paired with its (optional) right match, then the unmatched right rows. -/
def outerJoin (g t : List BrackenRow) :
    List (String × Option BrackenRow × Option BrackenRow) :=
  g.map (fun a => (a.name, some a, findRow t a.name)) ++
    (t.filter (fun b => (findRow g b.name).isNone)).map
      (fun b => (b.name, none, some b))

/-- `pd.merge(df_g, df_t, on="name", how="inner")` on unique keys. -/
def innerJoin (g t : List BrackenRow) :
    List (String × BrackenRow × BrackenRow) :=
  g.filterMap (fun a => (findRow t a.name).map (fun b => (a.name, a, b)))

/-- Assembly of one output row from the two optional sides, reflecting the
`fillna` policy of `merge_metag_metat`: fractions default to 0 before
`difference` is computed; `taxonomy_id` defaults to 0, `taxonomy_lvl` to
`"S"`, and the three read-count columns to 0. -/
def mergeRow (n : String) (og ot : Option BrackenRow) : MergedRow where
  name := n
  taxonomy_id_metaG := (og.map (·.taxonomy_id)).getD 0
  taxonomy_lvl_metaG := (og.map (·.taxonomy_lvl)).getD "S"
  kraken_assigned_reads_metaG := (og.map (·.kraken_assigned_reads)).getD 0
  added_reads_metaG := (og.map (·.added_reads)).getD 0
  new_est_reads_metaG := (og.map (·.new_est_reads)).getD 0
  fraction_total_reads_metaG := (og.map (·.fraction_total_reads)).getD 0
  taxonomy_id_metaT := (ot.map (·.taxonomy_id)).getD 0
  taxonomy_lvl_metaT := (ot.map (·.taxonomy_lvl)).getD "S"
  kraken_assigned_reads_metaT := (ot.map (·.kraken_assigned_reads)).getD 0
  added_reads_metaT := (ot.map (·.added_reads)).getD 0
  new_est_reads_metaT := (ot.map (·.new_est_reads)).getD 0
  fraction_total_reads_metaT := (ot.map (·.fraction_total_reads)).getD 0
  difference :=
    (og.map (·.fraction_total_reads)).getD 0 - (ot.map (·.fraction_total_reads)).getD 0

/-- The synthetic `CLASSIFICATION_STATS` row (`meta_row` in the source):
classified percentages in the fraction slots, unclassified percentages in the
`new_est_reads` slots, `difference = pct_g_class - pct_t_class`, `"N/A"` / 0
everywhere else. -/
def metaRow (pct_g_class pct_g_unclass pct_t_class pct_t_unclass : Rat) : MergedRow where
  name := "CLASSIFICATION_STATS"
  taxonomy_id_metaG := 0
  taxonomy_lvl_metaG := "N/A"
  kraken_assigned_reads_metaG := 0
  added_reads_metaG := 0
  new_est_reads_metaG := pct_g_unclass
  fraction_total_reads_metaG := pct_g_class
  taxonomy_id_metaT := 0
  taxonomy_lvl_metaT := "N/A"
  kraken_assigned_reads_metaT := 0
  added_reads_metaT := 0
  new_est_reads_metaT := pct_t_unclass
  fraction_total_reads_metaT := pct_t_class
  difference := pct_g_class - pct_t_class

/-- `merge_metag_metat`: returns the contents of the merged (outer-join) CSV
and the overlap (inner-join) CSV, each with the `CLASSIFICATION_STATS` row
prepended. -/
def merge_metag_metat (g t : List BrackenRow)
    (pct_g_class pct_g_unclass pct_t_class pct_t_unclass : Rat) :
    List MergedRow × List MergedRow :=
  let meta := metaRow pct_g_class pct_g_unclass pct_t_class pct_t_unclass
  let merged := meta :: (outerJoin g t).map (fun x => mergeRow x.1 x.2.1 x.2.2)
  let overlap := meta :: (innerJoin g t).map (fun x => mergeRow x.1 (some x.2.1) (some x.2.2))
  (merged, overlap)

/-- The taxon names of a table. -/
def tableNames (t : List BrackenRow) : List String :=
  t.map (·.name)

/-! ## `compute_similarity`

The function drops any `CLASSIFICATION_STATS` row from each input, outer-merges
the two `(name, fraction_total_reads)` projections on the taxon name, and
fills missing fractions with 0, yielding the two aligned vectors `vec_g` and
`vec_t`.  `scipy.spatial.distance.cosine` computes
`1 - uv / sqrt(uu * vv)` (clipped to `[0, 2]`) from the three dot products;
when `uu * vv = 0` the division is IEEE `0.0/0.0` (by Cauchy–Schwarz `uv` is
then also zero), which numpy answers with a `RuntimeWarning` and `nan` — not
an exception — so `sim = 1 - nan = nan` and the `except` branch that would
assign `sim = 0.0` is never entered.  We carry the exact dot products for the
finite case and a dedicated constructor for the `nan` case. -/

/-- Aligned fraction vectors of `compute_similarity`: one entry per taxon of
the outer-join union, `(taxon, vec_g value, vec_t value)`. -/
def similarity_alignment (g t : List BrackenRow) : List (String × Rat × Rat) :=
  let dg := g.filter (fun r => !(r.name == "CLASSIFICATION_STATS"))
  let dt := t.filter (fun r => !(r.name == "CLASSIFICATION_STATS"))
  (outerJoin dg dt).map (fun x =>
    (x.1, ((x.2.1).map (·.fraction_total_reads)).getD 0,
      ((x.2.2).map (·.fraction_total_reads)).getD 0))

/-- Value of the `sim` variable of `compute_similarity`: IEEE `nan`, or the
finite value determined exactly by the dot products `uv` and `uu * vv`
(namely `1 - clip(1 - uv / sqrt(uu * vv), 0, 2)`). -/
inductive CosineOutcome where
  | nanValue : CosineOutcome
  | finite (uv uu_vv : Rat) : CosineOutcome
deriving DecidableEq, Repr

/-- `sim = 1 - cosine(vec_g, vec_t)` of `compute_similarity`, as a function of
the aligned vectors. -/
def scipy_cosine_sim (pairs : List (Rat × Rat)) : CosineOutcome :=
  let uv : Rat := pairs.foldl (fun s p => s + p.1 * p.2) 0
  let uu : Rat := pairs.foldl (fun s p => s + p.1 * p.1) 0
  let vv : Rat := pairs.foldl (fun s p => s + p.2 * p.2) 0
  if uu * vv = 0 then .nanValue else .finite uv (uu * vv)

/-- The cosine-similarity value computed (and written to the log) by
`compute_similarity` for the two abundance tables. -/
def compute_similarity_sim (g t : List BrackenRow) : CosineOutcome :=
  scipy_cosine_sim ((similarity_alignment g t).map (fun x => (x.2.1, x.2.2)))

/-- The L1 `difference_score` of `compute_similarity`. -/
def difference_score (g t : List BrackenRow) : Rat :=
  ((similarity_alignment g t).map (fun x => |x.2.1 - x.2.2|)).foldl (· + ·) 0

/-- Fraction vectors read off the merged artifact with the summary row
excluded (the spec's derivation of the aligned vectors): drop the rows named
`CLASSIFICATION_STATS` from the merged table and keep
`(name, fraction_total_reads_metaG, fraction_total_reads_metaT)`. -/
def mergedArtifactVectors (g t : List BrackenRow)
    (pct_g_class pct_g_unclass pct_t_class pct_t_unclass : Rat) :
    List (String × Rat × Rat) :=
  (((merge_metag_metat g t pct_g_class pct_g_unclass pct_t_class pct_t_unclass).1).filter
      (fun r => !(r.name == "CLASSIFICATION_STATS"))).map
    (fun r => (r.name, r.fraction_total_reads_metaG, r.fraction_total_reads_metaT))

end Similar

/-- Decidable equality on `Except`, for evaluating concrete parser results. -/
instance {ε α : Type} [DecidableEq ε] [DecidableEq α] : DecidableEq (Except ε α) := fun a b =>
  match a, b with
  | .ok x, .ok y => if h : x = y then .isTrue (by rw [h]) else .isFalse (by simp [h])
  | .error x, .error y => if h : x = y then .isTrue (by rw [h]) else .isFalse (by simp [h])
  | .ok _, .error _ => .isFalse (by simp)
  | .error _, .ok _ => .isFalse (by simp)

/-! ## Theorems -/

open Similar

/-- C3 (counterexample): an external tool failing with exit code 2 terminates
the process with exit code 1, not with the tool's own exit code 2 —
`run_command` always calls `sys.exit(1)` on `CalledProcessError`. -/
theorem run_command_exit_code_not_propagated :
    run_command 2 = RunOutcome.exited 1 ∧ RunOutcome.exited 1 ≠ RunOutcome.exited 2 := by
  decide

/-- C3 (amended): every external-tool invocation that exits with a non-zero
code aborts the run immediately with no retry, and the process exits with
code 1 regardless of the failing tool's exit code. -/
theorem run_command_nonzero_exit_aborts_with_one (n : Nat) (h : n ≠ 0) :
    run_command n = RunOutcome.exited 1 := by
  simp [run_command, h]

/-- Witness for the amended C3 at tool exit code 7. -/
theorem run_command_nonzero_exit_aborts_with_one_witness :
    run_command 7 = RunOutcome.exited 1 :=
  run_command_nonzero_exit_aborts_with_one 7 (by decide)

/-- C7 (counterexample): the read-length string `"0"` does not denote a
positive integer, yet `"0".isdigit()` holds, so validation passes instead of
raising the claimed fatal usage error. -/
theorem read_len_zero_passes_validation :
    read_len_validation "0" = ValidationOutcome.proceeded ∧ ¬ (0 : Nat) > 0 := by
  decide

/-- C7 (amended): a read-length string passes validation iff it is a nonempty
string of digits (so `"0"` passes); every other string makes the pipeline
exit with code 1 before any external tool is invoked. -/
theorem read_len_validation_accepts_digit_strings (s : String) :
    (read_len_validation s = ValidationOutcome.proceeded ↔
      s.data ≠ [] ∧ ∀ c ∈ s.data, c.isDigit = true) ∧
    (read_len_validation s ≠ ValidationOutcome.proceeded →
      read_len_validation s = ValidationOutcome.exitedBeforeExternalCall 1) := by
  constructor
  · simp [read_len_validation, py_isdigit, List.all_eq_true, List.isEmpty_iff]
  · simp only [read_len_validation]
    split <;> simp

/-- Witness for the amended C7 at the digit string `"150"`. -/
theorem read_len_validation_accepts_digit_strings_witness :
    read_len_validation "150" = ValidationOutcome.proceeded :=
  (read_len_validation_accepts_digit_strings "150").1.mpr (by decide)

/-- C8: the merged and the overlap artifact have the same record layout
(`MergedRow`) and the same first row, named `CLASSIFICATION_STATS`, carrying
`percent_classified_A` in the A-side fraction column, `percent_unclassified_A`
in the A-side estimated-reads column, the B-side percentages in the B-side
columns, `difference = percent_classified_A - percent_classified_B`, and
`"N/A"` / 0 in every other field. -/
theorem merged_and_overlap_share_stats_first_row
    (g t : List BrackenRow) (pg pgu pt ptu : Rat) :
    (merge_metag_metat g t pg pgu pt ptu).1.head? =
      some { name := "CLASSIFICATION_STATS",
             taxonomy_id_metaG := 0, taxonomy_lvl_metaG := "N/A",
             kraken_assigned_reads_metaG := 0, added_reads_metaG := 0,
             new_est_reads_metaG := pgu, fraction_total_reads_metaG := pg,
             taxonomy_id_metaT := 0, taxonomy_lvl_metaT := "N/A",
             kraken_assigned_reads_metaT := 0, added_reads_metaT := 0,
             new_est_reads_metaT := ptu, fraction_total_reads_metaT := pt,
             difference := pg - pt } ∧
    (merge_metag_metat g t pg pgu pt ptu).2.head? =
      some { name := "CLASSIFICATION_STATS",
             taxonomy_id_metaG := 0, taxonomy_lvl_metaG := "N/A",
             kraken_assigned_reads_metaG := 0, added_reads_metaG := 0,
             new_est_reads_metaG := pgu, fraction_total_reads_metaG := pg,
             taxonomy_id_metaT := 0, taxonomy_lvl_metaT := "N/A",
             kraken_assigned_reads_metaT := 0, added_reads_metaT := 0,
             new_est_reads_metaT := ptu, fraction_total_reads_metaT := pt,
             difference := pg - pt } := by
  exact ⟨rfl, rfl⟩

/-- A report line that either has fewer than two tab-separated fields or has a
parseable first field and a label other than `unclassified` / `root` leaves
the scanning state unchanged. -/
theorem parseLine_skip {l : String}
    (h : 2 ≤ (lineParts l).length →
      ((pyFloat? (pyStrip ((lineParts l).headD []))).isSome = true ∧
        pyStrip ((lineParts l).getLastD []) ≠ "unclassified".data ∧
        pyStrip ((lineParts l).getLastD []) ≠ "root".data))
    (acc : Rat × Rat) : parseLine acc l = Except.ok acc := by
  by_cases hlen : (lineParts l).length < 2
  · simp only [parseLine]
    rw [if_pos hlen]
  · obtain ⟨hsome, hne1, hne2⟩ := h (Nat.le_of_not_lt hlen)
    obtain ⟨q, hq⟩ := Option.isSome_iff_exists.mp hsome
    simp only [parseLine]
    rw [if_neg hlen, hq]
    simp only [if_neg hne1, if_neg hne2]

/-- Scanning a report whose every line is skipped leaves the accumulator. -/
theorem foldlM_parseLine_const {lines : List String}
    (h : ∀ l ∈ lines, 2 ≤ (lineParts l).length →
      ((pyFloat? (pyStrip ((lineParts l).headD []))).isSome = true ∧
        pyStrip ((lineParts l).getLastD []) ≠ "unclassified".data ∧
        pyStrip ((lineParts l).getLastD []) ≠ "root".data))
    (acc : Rat × Rat) : List.foldlM parseLine acc lines = Except.ok acc := by
  induction lines with
  | nil => rfl
  | cons l ls ih =>
    have hstep : parseLine acc l = Except.ok acc :=
      parseLine_skip (h l (List.mem_cons_self l ls)) acc
    calc List.foldlM parseLine acc (l :: ls)
        = parseLine acc l >>= fun a => List.foldlM parseLine a ls := rfl
      _ = List.foldlM parseLine acc ls := by rw [hstep]; rfl
      _ = Except.ok acc := ih (fun x hx => h x (List.mem_cons_of_mem l hx))

/-- A report in which neither the `unclassified` nor the `root` label appears
(and every row with two or more fields parses) yields the defaults `(0, 0)`
and prints the warning. -/
theorem parse_classification_percents_default {lines : List String}
    (h : ∀ l ∈ lines, 2 ≤ (lineParts l).length →
      ((pyFloat? (pyStrip ((lineParts l).headD []))).isSome = true ∧
        pyStrip ((lineParts l).getLastD []) ≠ "unclassified".data ∧
        pyStrip ((lineParts l).getLastD []) ≠ "root".data)) :
    parse_classification_percents lines = Except.ok ((0, 0), true) := by
  unfold parse_classification_percents
  rw [foldlM_parseLine_const h (0, 0)]
  rfl

/-- C4: report percentages are derived by scanning the rows — split on tab,
percent = first field as float, label = last field trimmed; the
`unclassified` row supplies `percent_unclassified` and the `root` row
supplies `percent_classified`; the two scenario lines yield
`percent_classified = 87.66` and `percent_unclassified = 12.34`; a report in
which neither label appears yields `(0.0, 0.0)`. -/
theorem classification_percent_scan :
    (parse_classification_percents
        ["12.34\t100\t100\tU\t0\tunclassified", "87.66\t900\t50\t-\t1\troot"] =
      Except.ok ((87.66, 12.34), false)) ∧
    (∀ (acc : Rat × Rat) (line : String) (q : Rat),
      2 ≤ (lineParts line).length →
      pyFloat? (pyStrip ((lineParts line).headD [])) = some q →
      parseLine acc line =
        (if pyStrip ((lineParts line).getLastD []) = "unclassified".data then
          Except.ok (acc.1, q)
        else if pyStrip ((lineParts line).getLastD []) = "root".data then
          Except.ok (q, acc.2)
        else Except.ok acc)) ∧
    (∀ lines : List String,
      (∀ l ∈ lines, 2 ≤ (lineParts l).length →
        ((pyFloat? (pyStrip ((lineParts l).headD []))).isSome = true ∧
          pyStrip ((lineParts l).getLastD []) ≠ "unclassified".data ∧
          pyStrip ((lineParts l).getLastD []) ≠ "root".data)) →
      parse_classification_percents lines = Except.ok ((0, 0), true)) := by
  refine ⟨?_, ?_, ?_⟩
  · have h : parse_classification_percents
        ["12.34\t100\t100\tU\t0\tunclassified", "87.66\t900\t50\t-\t1\troot"] =
        Except.ok ((mkRat 8766 100, mkRat 1234 100), false) := by decide
    rw [h]
    norm_num [Rat.mkRat_eq_div]
  · intro acc line q hlen hq
    simp only [parseLine]
    rw [if_neg (Nat.not_lt.mpr hlen), hq]
  · intro lines h
    exact parse_classification_percents_default h

/-- Witness for C4: a report whose single row has a parseable percent and an
unrelated label is mapped to the defaults with the warning. -/
theorem classification_percent_scan_witness :
    parse_classification_percents ["1.0\tfoo"] = Except.ok ((0, 0), true) :=
  classification_percent_scan.2.2 ["1.0\tfoo"] (by decide)

/-- C5 (counterexample): the report line `"abc\tfoo"` has two tab-separated
fields whose first field is not a valid float; `float("abc")` raises
`ValueError`, so `parse_classification_percents` does not return default
percentages — the claim's non-fatal path is not taken. -/
theorem unparseable_percent_raises :
    parse_classification_percents ["abc\tfoo"] =
      Except.error "ValueError: could not convert string to float" ∧
    ∀ r : (Rat × Rat) × Bool,
      parse_classification_percents ["abc\tfoo"] ≠ Except.ok r := by
  have h : parse_classification_percents ["abc\tfoo"] =
      Except.error "ValueError: could not convert string to float" := by decide
  refine ⟨h, ?_⟩
  intro r hr
  rw [h] at hr
  exact Except.noConfusion hr

/-- C5 (amended): only a report in which neither label appears (and whose
rows with two or more fields all parse) is handled non-fatally, with both
percentages defaulting to 0.0 and the warning printed; a row with at least
two tab-separated fields whose first field is not a valid float raises
`ValueError`, which the orchestrator converts into a fatal exit with code 1 —
the run aborts rather than continuing. -/
theorem classification_parse_error_is_fatal :
    (classification_stage_outcome ["abc\tfoo"] = Except.error 1) ∧
    (∀ lines : List String,
      (∀ l ∈ lines, 2 ≤ (lineParts l).length →
        ((pyFloat? (pyStrip ((lineParts l).headD []))).isSome = true ∧
          pyStrip ((lineParts l).getLastD []) ≠ "unclassified".data ∧
          pyStrip ((lineParts l).getLastD []) ≠ "root".data)) →
      classification_stage_outcome lines = Except.ok ((0, 0), true)) := by
  constructor
  · decide
  · intro lines h
    unfold classification_stage_outcome
    rw [parse_classification_percents_default h]

/-- Witness for the amended C5: a one-row report with a parseable percent and
an unrelated label is non-fatal and yields the defaults. -/
theorem classification_parse_error_is_fatal_witness :
    classification_stage_outcome ["2\tx"] = Except.ok ((0, 0), true) :=
  classification_parse_error_is_fatal.2 ["2\tx"] (by decide)

/-- C9 (counterexample): a specifier naming an existing file without a
recognized sequence-file extension (`notes.txt`) makes `prepare_input` raise
`FileNotFoundError`; it is not treated as an archive accession. -/
theorem existing_non_fastq_raises :
    prepare_input (fun s => s == "notes.txt") "notes.txt" "results" =
      ResolveOutcome.fileNotFoundError
        "Input file notes.txt does not look like a FASTQ. Please use .fastq or .fastq.gz." ∧
    ∀ subdir accession,
      prepare_input (fun s => s == "notes.txt") "notes.txt" "results" ≠
        ResolveOutcome.sraFetch subdir accession := by
  have h : prepare_input (fun s => s == "notes.txt") "notes.txt" "results" =
      ResolveOutcome.fileNotFoundError
        "Input file notes.txt does not look like a FASTQ. Please use .fastq or .fastq.gz." := by
    decide
  refine ⟨h, ?_⟩
  intro subdir accession hcontra
  rw [h] at hcontra
  exact ResolveOutcome.noConfusion hcontra

/-- C9 (amended): a specifier naming an existing file ending in `.fastq` or
`.fastq.gz` resolves to exactly that file, with canonical id the part of the
file's basename before the first dot; an existing file with any other name
raises a fatal `FileNotFoundError`; only a specifier naming no existing file
is treated as an archive accession, fetched under the per-accession
subdirectory `outdir/accession` with canonical id the accession. -/
theorem prepare_input_branching (isFile : String → Bool) (src outdir : String) :
    (isFile src = true →
      (".fastq".data <:+ src.data ∨ ".fastq.gz".data <:+ src.data) →
      prepare_input isFile src outdir =
        ResolveOutcome.localFastq [src] (stemBeforeDot (basename src))) ∧
    (isFile src = true →
      ¬(".fastq".data <:+ src.data ∨ ".fastq.gz".data <:+ src.data) →
      prepare_input isFile src outdir =
        ResolveOutcome.fileNotFoundError ("Input file " ++ src ++
          " does not look like a FASTQ. Please use .fastq or .fastq.gz.")) ∧
    (isFile src = false →
      prepare_input isFile src outdir =
        ResolveOutcome.sraFetch (outdir ++ "/" ++ src) src) := by
  refine ⟨?_, ?_, ?_⟩
  · intro hf hsuf
    have hor : (strEndsWith src ".fastq" || strEndsWith src ".fastq.gz") = true := by
      rcases hsuf with h | h
      · rw [Bool.or_eq_true]
        exact Or.inl (List.isSuffixOf_iff_suffix.mpr h)
      · rw [Bool.or_eq_true]
        exact Or.inr (List.isSuffixOf_iff_suffix.mpr h)
    simp [prepare_input, hf, hor]
  · intro hf hsuf
    have h1 : strEndsWith src ".fastq" = false := by
      rw [Bool.eq_false_iff]
      intro hc
      exact hsuf (Or.inl (List.isSuffixOf_iff_suffix.mp hc))
    have h2 : strEndsWith src ".fastq.gz" = false := by
      rw [Bool.eq_false_iff]
      intro hc
      exact hsuf (Or.inr (List.isSuffixOf_iff_suffix.mp hc))
    simp [prepare_input, hf, h1, h2]
  · intro hf
    simp [prepare_input, hf]

/-- Witness for the amended C9: a local `.fastq` path resolves to itself with
the basename-derived canonical id. -/
theorem prepare_input_branching_witness :
    prepare_input (fun s => s == "data/sample.fastq") "data/sample.fastq" "results" =
      ResolveOutcome.localFastq ["data/sample.fastq"] "sample" :=
  (prepare_input_branching (fun s => s == "data/sample.fastq")
    "data/sample.fastq" "results").1 (by decide) (by decide)

/-- C1: in the merged (outer-join) table, a taxon present only in the metaG
table keeps all its metaG fields unchanged while the metaT side is filled
with the documented defaults (read counts 0, `taxonomy_lvl` `"S"`,
`taxonomy_id` 0, fraction 0.0) and `difference = fraction_metaG - 0`;
symmetrically for a taxon present only in the metaT table. -/
theorem merged_one_sided_taxon_defaults (g t : List BrackenRow) (pg pgu pt ptu : Rat) :
    (∀ a ∈ g, (∀ b ∈ t, b.name ≠ a.name) →
      ({ name := a.name,
         taxonomy_id_metaG := a.taxonomy_id, taxonomy_lvl_metaG := a.taxonomy_lvl,
         kraken_assigned_reads_metaG := a.kraken_assigned_reads,
         added_reads_metaG := a.added_reads, new_est_reads_metaG := a.new_est_reads,
         fraction_total_reads_metaG := a.fraction_total_reads,
         taxonomy_id_metaT := 0, taxonomy_lvl_metaT := "S",
         kraken_assigned_reads_metaT := 0, added_reads_metaT := 0,
         new_est_reads_metaT := 0, fraction_total_reads_metaT := 0,
         difference := a.fraction_total_reads - 0 } : MergedRow) ∈
        (merge_metag_metat g t pg pgu pt ptu).1) ∧
    (∀ b ∈ t, (∀ a ∈ g, a.name ≠ b.name) →
      ({ name := b.name,
         taxonomy_id_metaG := 0, taxonomy_lvl_metaG := "S",
         kraken_assigned_reads_metaG := 0, added_reads_metaG := 0,
         new_est_reads_metaG := 0, fraction_total_reads_metaG := 0,
         taxonomy_id_metaT := b.taxonomy_id, taxonomy_lvl_metaT := b.taxonomy_lvl,
         kraken_assigned_reads_metaT := b.kraken_assigned_reads,
         added_reads_metaT := b.added_reads, new_est_reads_metaT := b.new_est_reads,
         fraction_total_reads_metaT := b.fraction_total_reads,
         difference := 0 - b.fraction_total_reads } : MergedRow) ∈
        (merge_metag_metat g t pg pgu pt ptu).1) := by
  constructor
  · intro a ha hnb
    have hfind : findRow t a.name = none := by
      unfold findRow
      rw [List.find?_eq_none]
      intro b hb
      simpa using hnb b hb
    have hx : (a.name, some a, (none : Option BrackenRow)) ∈ outerJoin g t := by
      unfold outerJoin
      refine List.mem_append_left _ ?_
      rw [← hfind]
      exact List.mem_map_of_mem _ ha
    exact List.mem_cons_of_mem _
      (List.mem_map_of_mem (fun x => mergeRow x.1 x.2.1 x.2.2) hx)
  · intro b hb hna
    have hfindg : findRow g b.name = none := by
      unfold findRow
      rw [List.find?_eq_none]
      intro a hamem
      simpa using hna a hamem
    have hbfil : b ∈ t.filter (fun r => (findRow g r.name).isNone) := by
      rw [List.mem_filter]
      exact ⟨hb, by rw [hfindg]; rfl⟩
    have hx : (b.name, (none : Option BrackenRow), some b) ∈ outerJoin g t := by
      unfold outerJoin
      exact List.mem_append_right _ (List.mem_map_of_mem _ hbfil)
    exact List.mem_cons_of_mem _
      (List.mem_map_of_mem (fun x => mergeRow x.1 x.2.1 x.2.2) hx)

/-- Witness for C1: a one-row metaG table merged against an empty metaT table
produces the defaults-filled row for the metaG-only taxon. -/
theorem merged_one_sided_taxon_defaults_witness :
    ({ name := "sp1",
       taxonomy_id_metaG := 562, taxonomy_lvl_metaG := "S",
       kraken_assigned_reads_metaG := 100, added_reads_metaG := 20,
       new_est_reads_metaG := 120, fraction_total_reads_metaG := mkRat 6 10,
       taxonomy_id_metaT := 0, taxonomy_lvl_metaT := "S",
       kraken_assigned_reads_metaT := 0, added_reads_metaT := 0,
       new_est_reads_metaT := 0, fraction_total_reads_metaT := 0,
       difference := mkRat 6 10 - 0 } : MergedRow) ∈
      (merge_metag_metat
        [{ name := "sp1", taxonomy_id := 562, taxonomy_lvl := "S",
           kraken_assigned_reads := 100, added_reads := 20, new_est_reads := 120,
           fraction_total_reads := mkRat 6 10 }] [] 1 2 3 4).1 :=
  (merged_one_sided_taxon_defaults _ _ 1 2 3 4).1
    { name := "sp1", taxonomy_id := 562, taxonomy_lvl := "S",
      kraken_assigned_reads := 100, added_reads := 20, new_est_reads := 120,
      fraction_total_reads := mkRat 6 10 }
    (List.mem_singleton.mpr rfl) (by simp)

/-- `findRow` misses exactly the names outside the table. -/
theorem findRow_eq_none_iff (t : List BrackenRow) (n : String) :
    findRow t n = none ↔ n ∉ tableNames t := by
  unfold findRow tableNames
  rw [List.find?_eq_none]
  constructor
  · intro h hn
    obtain ⟨r, hr, hrn⟩ := List.mem_map.mp hn
    exact h r hr (by simp [hrn])
  · intro h r hr hbeq
    exact h (List.mem_map.mpr ⟨r, hr, by simpa using hbeq⟩)

/-- `findRow` hits exactly the names of the table. -/
theorem findRow_isSome_iff (t : List BrackenRow) (n : String) :
    (findRow t n).isSome = true ↔ n ∈ tableNames t := by
  rw [Option.isSome_iff_ne_none, ne_eq, findRow_eq_none_iff, not_not]

/-- `filterMap` has the length of the `filter` by definedness. -/
theorem length_filterMap_eq {α β : Type _} (f : α → Option β) (l : List α) :
    (l.filterMap f).length = (l.filter (fun a => (f a).isSome)).length := by
  induction l with
  | nil => rfl
  | cons a l ih =>
    cases h : f a with
    | none => simp [List.filterMap_cons, List.filter_cons, h, ih]
    | some b => simp [List.filterMap_cons, List.filter_cons, h, ih]

/-- Filtering rows by a predicate on the name commutes with taking names. -/
theorem map_name_filter (p : String → Bool) (t : List BrackenRow) :
    (t.filter (fun b => p b.name)).map (·.name) = (tableNames t).filter p := by
  unfold tableNames
  induction t with
  | nil => rfl
  | cons b t ih =>
    rw [List.map_cons, List.filter_cons, List.filter_cons]
    cases h : p b.name <;> simp [h, ih]

/-- The length of a name-predicate filter equals the matching `Finset` card
when the names are unique. -/
theorem length_filter_name_eq_card (p : String → Bool) (t : List BrackenRow)
    (ht : (tableNames t).Nodup) :
    (t.filter (fun b => p b.name)).length =
      ((tableNames t).toFinset.filter (fun n => p n = true)).card := by
  have h1 : (t.filter (fun b => p b.name)).length =
      ((tableNames t).filter p).length := by
    rw [← map_name_filter p t, List.length_map]
  rw [h1, ← List.toFinset_card_of_nodup (ht.filter p), List.toFinset_filter]

/-- C2: the merged table has one row per taxon of the union of the two
tables plus the synthetic summary row; the overlap table has one row per
taxon of the intersection plus the summary row. -/
theorem merge_row_counts (g t : List BrackenRow) (pg pgu pt ptu : Rat)
    (hg : (tableNames g).Nodup) (ht : (tableNames t).Nodup) :
    ((merge_metag_metat g t pg pgu pt ptu).1).length =
      ((tableNames g).toFinset ∪ (tableNames t).toFinset).card + 1 ∧
    ((merge_metag_metat g t pg pgu pt ptu).2).length =
      ((tableNames g).toFinset ∩ (tableNames t).toFinset).card + 1 := by
  constructor
  · show ((outerJoin g t).map _).length + 1 = _
    rw [List.length_map]
    congr 1
    unfold outerJoin
    rw [List.length_append, List.length_map, List.length_map]
    have hgl : g.length = (tableNames g).toFinset.card := by
      rw [List.toFinset_card_of_nodup hg]
      exact (List.length_map g _).symm
    have hfl : (t.filter (fun b => (findRow g b.name).isNone)).length =
        ((tableNames t).toFinset \ (tableNames g).toFinset).card := by
      rw [length_filter_name_eq_card (fun n => (findRow g n).isNone) t ht]
      congr 1
      rw [Finset.sdiff_eq_filter]
      refine Finset.filter_congr ?_
      intro n _
      rw [Option.isNone_iff_eq_none, findRow_eq_none_iff, List.mem_toFinset]
    rw [hgl, hfl, Nat.add_comm, Finset.card_sdiff_add_card, Finset.union_comm]
  · show ((innerJoin g t).map _).length + 1 = _
    rw [List.length_map]
    congr 1
    unfold innerJoin
    rw [length_filterMap_eq]
    have heq : (g.filter (fun a => ((findRow t a.name).map
        (fun b => (a.name, a, b))).isSome)) =
        (g.filter (fun a => (findRow t a.name).isSome)) := by
      refine List.filter_congr ?_
      intro a _
      cases findRow t a.name <;> rfl
    rw [heq, length_filter_name_eq_card (fun n => (findRow t n).isSome) g hg]
    congr 1
    have hiff : Finset.filter (fun n => (findRow t n).isSome = true)
        (tableNames g).toFinset =
        Finset.filter (fun n => n ∈ (tableNames t).toFinset)
          (tableNames g).toFinset := by
      refine Finset.filter_congr ?_
      intro n _
      rw [findRow_isSome_iff, List.mem_toFinset]
    rw [hiff, Finset.filter_mem_eq_inter]

/-- Witness for C2 on the spec's scenario tables
`A = {sp1, sp2}`, `B = {sp2, sp3}`: merged has 3 + 1 rows, overlap 1 + 1. -/
theorem merge_row_counts_witness :
    ((merge_metag_metat
        [{ name := "sp1", taxonomy_id := 1, taxonomy_lvl := "S",
           kraken_assigned_reads := 1, added_reads := 0, new_est_reads := 1,
           fraction_total_reads := mkRat 6 10 },
         { name := "sp2", taxonomy_id := 2, taxonomy_lvl := "S",
           kraken_assigned_reads := 1, added_reads := 0, new_est_reads := 1,
           fraction_total_reads := mkRat 4 10 }]
        [{ name := "sp2", taxonomy_id := 2, taxonomy_lvl := "S",
           kraken_assigned_reads := 1, added_reads := 0, new_est_reads := 1,
           fraction_total_reads := mkRat 5 10 },
         { name := "sp3", taxonomy_id := 3, taxonomy_lvl := "S",
           kraken_assigned_reads := 1, added_reads := 0, new_est_reads := 1,
           fraction_total_reads := mkRat 5 10 }] 0 0 0 0).1).length = 3 + 1 ∧
    ((merge_metag_metat
        [{ name := "sp1", taxonomy_id := 1, taxonomy_lvl := "S",
           kraken_assigned_reads := 1, added_reads := 0, new_est_reads := 1,
           fraction_total_reads := mkRat 6 10 },
         { name := "sp2", taxonomy_id := 2, taxonomy_lvl := "S",
           kraken_assigned_reads := 1, added_reads := 0, new_est_reads := 1,
           fraction_total_reads := mkRat 4 10 }]
        [{ name := "sp2", taxonomy_id := 2, taxonomy_lvl := "S",
           kraken_assigned_reads := 1, added_reads := 0, new_est_reads := 1,
           fraction_total_reads := mkRat 5 10 },
         { name := "sp3", taxonomy_id := 3, taxonomy_lvl := "S",
           kraken_assigned_reads := 1, added_reads := 0, new_est_reads := 1,
           fraction_total_reads := mkRat 5 10 }] 0 0 0 0).2).length = 1 + 1 := by
  have h := merge_row_counts
    [{ name := "sp1", taxonomy_id := 1, taxonomy_lvl := "S",
       kraken_assigned_reads := 1, added_reads := 0, new_est_reads := 1,
       fraction_total_reads := mkRat 6 10 },
     { name := "sp2", taxonomy_id := 2, taxonomy_lvl := "S",
       kraken_assigned_reads := 1, added_reads := 0, new_est_reads := 1,
       fraction_total_reads := mkRat 4 10 }]
    [{ name := "sp2", taxonomy_id := 2, taxonomy_lvl := "S",
       kraken_assigned_reads := 1, added_reads := 0, new_est_reads := 1,
       fraction_total_reads := mkRat 5 10 },
     { name := "sp3", taxonomy_id := 3, taxonomy_lvl := "S",
       kraken_assigned_reads := 1, added_reads := 0, new_est_reads := 1,
       fraction_total_reads := mkRat 5 10 }] 0 0 0 0 (by decide) (by decide)
  rw [h.1, h.2]
  exact ⟨by decide, by decide⟩

/-- Looking up a name that survives a name-filter is unaffected by the
filter. -/
theorem findRow_filter_name (p : String → Bool) (t : List BrackenRow) (n : String)
    (hp : p n = true) :
    findRow (t.filter (fun r => p r.name)) n = findRow t n := by
  induction t with
  | nil => rfl
  | cons b t ih =>
    rw [List.filter_cons]
    by_cases hb : (b.name == n) = true
    · have hbn : b.name = n := beq_iff_eq.mp hb
      rw [if_pos (by rw [hbn]; exact hp)]
      unfold findRow
      rw [List.find?_cons, List.find?_cons, hb]
    · have hbf : (b.name == n) = false := by simpa using hb
      cases hpb : p b.name
      · rw [if_neg (by simp [hpb])]
        unfold findRow at ih ⊢
        rw [ih, List.find?_cons, hbf]
      · rw [if_pos rfl]
        unfold findRow at ih ⊢
        rw [List.find?_cons, List.find?_cons, hbf]
        exact ih

/-- Outer-joining two name-filtered tables is the name-filter of the outer
join. -/
theorem outerJoin_filter_name (p : String → Bool) (g t : List BrackenRow) :
    outerJoin (g.filter (fun r => p r.name)) (t.filter (fun r => p r.name)) =
      (outerJoin g t).filter (fun x => p x.1) := by
  unfold outerJoin
  rw [List.filter_append]
  congr 1
  · rw [List.filter_map]
    have h1 : List.filter ((fun x : String × Option BrackenRow × Option BrackenRow => p x.1) ∘
        fun a => (a.name, some a, findRow t a.name)) g =
        List.filter (fun r => p r.name) g :=
      List.filter_congr (fun a _ => rfl)
    rw [h1]
    refine List.map_congr_left ?_
    intro a ha
    have hpa : p a.name = true := (List.mem_filter.mp ha).2
    rw [findRow_filter_name p t a.name hpa]
  · rw [List.filter_map]
    have h2 : List.filter ((fun x : String × Option BrackenRow × Option BrackenRow => p x.1) ∘
        fun b => (b.name, (none : Option BrackenRow), some b))
        (t.filter (fun b => (findRow g b.name).isNone)) =
        List.filter (fun r => p r.name)
          (t.filter (fun b => (findRow g b.name).isNone)) :=
      List.filter_congr (fun b _ => rfl)
    rw [h2, List.filter_filter, List.filter_filter]
    refine congrArg _ (List.filter_congr ?_)
    intro b _
    cases hpb : p b.name
    · simp
    · simp [findRow_filter_name p g b.name hpb]

/-- C10: the aligned fraction vectors built by `compute_similarity` (outer
merge of the two per-condition tables, missing fractions zero-filled)
coincide, taxon for taxon, with the vectors read off the merged artifact with
the summary row excluded. -/
theorem similarity_vectors_match_merged_artifact (g t : List BrackenRow)
    (pg pgu pt ptu : Rat)
    (hg : (tableNames g).Nodup) (ht : (tableNames t).Nodup) :
    similarity_alignment g t = mergedArtifactVectors g t pg pgu pt ptu := by
  unfold similarity_alignment mergedArtifactVectors merge_metag_metat
  have hmeta : (!((metaRow pg pgu pt ptu).name == "CLASSIFICATION_STATS")) = false := by
    rfl
  rw [List.filter_cons, hmeta]
  rw [if_neg (by simp)]
  rw [List.filter_map, List.map_map]
  have hpred : List.filter ((fun r => !(r.name == "CLASSIFICATION_STATS")) ∘
      fun x : String × Option BrackenRow × Option BrackenRow =>
        mergeRow x.1 x.2.1 x.2.2) (outerJoin g t) =
      List.filter (fun x => !(x.1 == "CLASSIFICATION_STATS")) (outerJoin g t) :=
    List.filter_congr (fun x _ => rfl)
  rw [hpred, ← outerJoin_filter_name (fun n => !(n == "CLASSIFICATION_STATS")) g t]
  exact List.map_congr_left (fun x _ => rfl)

/-- Witness for C10 on a pair of one-row tables with distinct taxa. -/
theorem similarity_vectors_match_merged_artifact_witness :
    similarity_alignment
        [{ name := "sp1", taxonomy_id := 1, taxonomy_lvl := "S",
           kraken_assigned_reads := 1, added_reads := 0, new_est_reads := 1,
           fraction_total_reads := mkRat 6 10 }]
        [{ name := "sp2", taxonomy_id := 2, taxonomy_lvl := "S",
           kraken_assigned_reads := 1, added_reads := 0, new_est_reads := 1,
           fraction_total_reads := mkRat 5 10 }] =
      mergedArtifactVectors
        [{ name := "sp1", taxonomy_id := 1, taxonomy_lvl := "S",
           kraken_assigned_reads := 1, added_reads := 0, new_est_reads := 1,
           fraction_total_reads := mkRat 6 10 }]
        [{ name := "sp2", taxonomy_id := 2, taxonomy_lvl := "S",
           kraken_assigned_reads := 1, added_reads := 0, new_est_reads := 1,
           fraction_total_reads := mkRat 5 10 }] 1 2 3 4 :=
  similarity_vectors_match_merged_artifact _ _ 1 2 3 4 (by decide) (by decide)

/-- C6 (evaluation at the failing input): with an empty metaG table the
aligned metaG vector is all-zero, `uu * vv = 0`, and the scipy cosine call
divides `0.0` by `0.0`; numpy yields `nan` with a `RuntimeWarning` instead of
raising, so `sim = 1 - nan` is `nan` — not the 0.0 the claim states, and the
`except` fallback that would set `sim = 0.0` never runs. -/
theorem compute_similarity_zero_vector_sim_nan :
    compute_similarity_sim []
      [{ name := "sp1", taxonomy_id := 1, taxonomy_lvl := "S",
         kraken_assigned_reads := 1, added_reads := 0, new_est_reads := 1,
         fraction_total_reads := mkRat 5 10 }] = CosineOutcome.nanValue := by
  simp [compute_similarity_sim, scipy_cosine_sim, similarity_alignment,
    outerJoin, findRow]
